import Mathlib

/-!
Verification development for `safe_control_gym/envs/gym_pybullet_drones/quadrotor.py`.

The file shallowly embeds the pure decision logic of the `Quadrotor` environment:
the termination predicate `_get_done`, the gate-progress state machine and
`current_gate_id` reporting of `_get_info`, the sparse competition reward and the
trajectory-tracking goal lookups of `_get_reward`, the gate-id validation in
`reset`, and the symbolic dynamics/cost expressions built by `_setup_symbolic`.
External collaborators (the PyBullet engine's ray tests, contact queries, and the
physics stepping) enter as per-step inputs: ray hit fractions, collision flags,
and counters.
-/

namespace Quadrotor

/-- The three vehicle fidelity levels (`QuadType`). -/
inductive QuadType
  | ONE_D
  | TWO_D
  | THREE_D
deriving DecidableEq

/-- State dimension per fidelity (2 / 6 / 12). -/
def stateDim : QuadType → ℕ
  | .ONE_D => 2
  | .TWO_D => 6
  | .THREE_D => 12

/-- The fixed per-fidelity out-of-bound mask in `_get_done`
(`mask = np.array([...])`, positions/angles selected, derivatives masked out). -/
def doneMask : QuadType → List ℕ
  | .ONE_D => [1, 0]
  | .TWO_D => [1, 0, 1, 0, 1, 0]
  | .THREE_D => [1, 0, 1, 0, 1, 0, 1, 1, 1, 0, 0, 0]

/-- `np.any(np.logical_or(state < low, state > high) * mask)` from `_get_done`:
an entry of the elementwise product is nonzero exactly when the state entry is
strictly out of bounds and the mask entry is nonzero. -/
def outOfBound (state low high : List ℚ) (mask : List ℕ) : Bool :=
  (state.zip (low.zip (high.zip mask))).any fun sp =>
    (decide (sp.1 < sp.2.1) || decide (sp.1 > sp.2.2.1)) && decide (sp.2.2.2 ≠ 0)

/-- `_get_done`: out-of-bound check (when enabled), then collision-based and
completion-based termination, each guarded by its own enable flag. -/
def get_done (qt : QuadType) (done_on_out_of_bound : Bool)
    (state low high : List ℚ)
    (DONE_ON_COLLISION currently_collided DONE_ON_COMPLETION task_completed : Bool) : Bool :=
  if done_on_out_of_bound && outOfBound state low high (doneMask qt) then true
  else if DONE_ON_COLLISION && currently_collided then true
  else if DONE_ON_COMPLETION && task_completed then true
  else false

/-- The mutable gate-progress fields of the episode state
(`self.current_gate`, `self.stepped_through_gate`). -/
structure GateState where
  current_gate : ℤ
  stepped_through_gate : Bool
deriving DecidableEq

/-- Gate-progress fields right after `reset` for an episode started at gate
index 0 (`self.current_gate = 0`, `self.stepped_through_gate = False`). -/
def resetGateState : GateState := ⟨0, false⟩

/-- Guard of the gate-progress block in `_get_info`:
`pyb_step_counter > 0.5 * PYB_FREQ and NUM_GATES > 0 and current_gate < NUM_GATES`. -/
def gateGuard (PYB_FREQ NUM_GATES pyb_step_counter : ℕ) (s : GateState) : Bool :=
  decide ((pyb_step_counter : ℚ) > 1/2 * (PYB_FREQ : ℚ)) && decide (0 < NUM_GATES)
    && decide (s.current_gate < (NUM_GATES : ℤ))

/-- The ray scan of the gate-progress block: the loop over `rayTestBatch` results
increments `current_gate` once and sets the pulse flag at the first hit fraction
below `0.9999`, then breaks; with no hit the flag is cleared.  `rays` is the list
of hit fractions; the second component records whether the ray test was
performed at all (the guard held). -/
def gateStepFull (PYB_FREQ NUM_GATES pyb_step_counter : ℕ) (rays : List ℚ)
    (s : GateState) : GateState × Bool :=
  if gateGuard PYB_FREQ NUM_GATES pyb_step_counter s then
    if rays.any fun rr => decide (rr < 9999/10000) then
      (⟨s.current_gate + 1, true⟩, true)
    else
      (⟨s.current_gate, false⟩, true)
  else
    (s, false)

/-- The gate-progress state left behind by one call to `_get_info`. -/
def gateStep (PYB_FREQ NUM_GATES pyb_step_counter : ℕ) (rays : List ℚ)
    (s : GateState) : GateState :=
  (gateStepFull PYB_FREQ NUM_GATES pyb_step_counter rays s).1

/-- Whether the passage check runs and detects a crossing on this step. -/
def detectsPassage (PYB_FREQ NUM_GATES pyb_step_counter : ℕ) (rays : List ℚ)
    (s : GateState) : Bool :=
  gateGuard PYB_FREQ NUM_GATES pyb_step_counter s
    && rays.any fun rr => decide (rr < 9999/10000)

/-- An episode's gate progress: fold the per-step inputs
(accumulated `pyb_step_counter`, ray hit fractions) from the reset state. -/
def runGates (PYB_FREQ NUM_GATES : ℕ) (inputs : List (ℕ × List ℚ)) : GateState :=
  inputs.foldl (fun s inp => gateStep PYB_FREQ NUM_GATES inp.1 inp.2 s) resetGateState

/-- `info["current_gate_id"] = current_gate if current_gate < NUM_GATES else -1`. -/
def current_gate_id (current_gate : ℤ) (NUM_GATES : ℕ) : ℤ :=
  if current_gate < (NUM_GATES : ℤ) then current_gate else -1

/-- Sparse competition reward (`_get_reward`, `Cost.COMPETITION` branch),
translated statement by statement. -/
def competition_reward (stepped_through_gate at_goal_pos currently_collided
    cnstr_violation : Bool) : ℤ :=
  let reward : ℤ := 0
  let reward := if stepped_through_gate then reward + 100 else reward
  let reward := if at_goal_pos then reward + 100 else reward
  let reward := if currently_collided then reward - 1000 else reward
  let reward := if cnstr_violation then reward - 100 else reward
  reward

/-- Trajectory-tracking goal lookup used by the RL reward (`_get_reward`) and by
the info-dict MSE (`_get_info`): `wp_idx = min(ctrl_step_counter, X_GOAL.shape[0] - 1)`
then `X_GOAL[wp_idx]`. -/
def rl_tracking_goal {α : Type} (X_GOAL : List α) (ctrl_step_counter : ℕ) : Option α :=
  X_GOAL.get? (min ctrl_step_counter (X_GOAL.length - 1))

/-- Trajectory-tracking goal lookup in the quadratic-cost branch of `_get_reward`:
`X_GOAL[self.ctrl_step_counter, :]`, a direct row index (`none` models numpy's
IndexError for a row index at or past the horizon). -/
def quadratic_tracking_goal {α : Type} (X_GOAL : List α) (ctrl_step_counter : ℕ) : Option α :=
  X_GOAL.get? ctrl_step_counter

/-- Outcome of the gate-id handling in `reset`: either the episode proceeds
(recording `current_gate` and, when a nonzero id was given, which row of
`gates_pose` supplies the start pose), or the `assert` fails. -/
inductive ResetOutcome
  | ok (current_gate : ℤ) (init_pose_gate : Option ℤ)
  | assert_failed
deriving DecidableEq

/-- Gate-id handling in `reset`: `current_gate` is set to the requested id (or 0);
when the id is present and nonzero, `assert init_gate_id < self.NUM_GATES` runs
and the start pose is taken from `self._gates_pose[init_gate_id - 1]`
(a Python index, so negative values wrap instead of failing). -/
def reset_gate_id (NUM_GATES : ℕ) (initial_target_gate_id : Option ℤ) : ResetOutcome :=
  match initial_target_gate_id with
  | some g =>
      if g ≠ 0 then
        if g < (NUM_GATES : ℤ) then ResetOutcome.ok g (some (g - 1))
        else ResetOutcome.assert_failed
      else ResetOutcome.ok g none
  | none => ResetOutcome.ok 0 none

/-- 3-vectors over ℝ. -/
abbrev Vec3 : Type := Fin 3 → ℝ

/-- 3×3 matrices over ℝ, as in the CasADi `blockcat` expressions. -/
abbrev Mat3 : Type := Fin 3 → Fin 3 → ℝ

/-- Matrix-vector product (`A @ v` on 3-vectors). -/
noncomputable def mulVec3 (A : Mat3) (v : Vec3) : Vec3 :=
  fun i => A i 0 * v 0 + A i 1 * v 1 + A i 2 * v 2

/-- Matrix-matrix product on 3×3 matrices. -/
noncomputable def mulMat3 (A B : Mat3) : Mat3 :=
  fun i j => A i 0 * B 0 j + A i 1 * B 1 j + A i 2 * B 2 j

/-- Elementary rotation about the x axis by `a`. -/
noncomputable def rotX (a : ℝ) : Mat3 :=
  ![![1, 0, 0],
    ![0, Real.cos a, -Real.sin a],
    ![0, Real.sin a, Real.cos a]]

/-- Elementary rotation about the y axis by `a`. -/
noncomputable def rotY (a : ℝ) : Mat3 :=
  ![![Real.cos a, 0, Real.sin a],
    ![0, 1, 0],
    ![-Real.sin a, 0, Real.cos a]]

/-- Elementary rotation about the z axis by `a`. -/
noncomputable def rotZ (a : ℝ) : Mat3 :=
  ![![Real.cos a, -Real.sin a, 0],
    ![Real.sin a, Real.cos a, 0],
    ![0, 0, 1]]

/-- Modelled from the spec: `csRotXYZ` comes from
`safe_control_gym.math_and_models.transformations`, which is not under `src/`;
per the spec it is the body-to-world rotation matrix in the physics engine's
(SDFormat) XYZ Euler-angle convention: roll about x, then pitch about y, then
yaw about z, i.e. `Rz(psi) * Ry(theta) * Rx(phi)`. -/
noncomputable def csRotXYZ (phi theta psi : ℝ) : Mat3 :=
  mulMat3 (mulMat3 (rotZ psi) (rotY theta)) (rotX phi)

/-- `cs.skew(v)`: the skew-symmetric cross-product matrix of a 3-vector. -/
noncomputable def skew3 (v : Vec3) : Mat3 :=
  ![![0, -v 2, v 1],
    ![v 2, 0, -v 0],
    ![-v 1, v 0, 0]]

/-- `_setup_symbolic`, 1D branch: `X_dot = vertcat(z_dot, T / m - g)`. -/
noncomputable def oneD_X_dot (m g : ℝ) (z z_dot : ℝ) (T : ℝ) : Fin 2 → ℝ :=
  ![z_dot, T / m - g]

/-- `_setup_symbolic`, 2D branch: planar dynamics with two thrusts,
`X = (x, x_dot, z, z_dot, theta, theta_dot)`. -/
noncomputable def twoD_X_dot (m g l Iyy : ℝ)
    (x x_dot z z_dot theta theta_dot : ℝ) (T1 T2 : ℝ) : Fin 6 → ℝ :=
  ![x_dot,
    Real.sin theta * (T1 + T2) / m,
    z_dot,
    Real.cos theta * (T1 + T2) / m - g,
    theta_dot,
    l * (T2 - T1) / Iyy / Real.sqrt 2]

/-- `_setup_symbolic`, 3D branch: full 6-DOF dynamics with four rotor thrusts,
`X = (x, x_dot, y, y_dot, z, z_dot, phi, theta, psi, p, q, r)`; `gamma = KM/KF`. -/
noncomputable def threeD_X_dot (m g l Ixx Iyy Izz gamma : ℝ)
    (x x_dot y y_dot z z_dot phi theta psi p q r : ℝ)
    (f1 f2 f3 f4 : ℝ) : Fin 12 → ℝ :=
  let Rob := csRotXYZ phi theta psi
  let oVdot_cg_o : Vec3 :=
    fun i => mulVec3 Rob ![0, 0, f1 + f2 + f3 + f4] i / m - (![0, 0, g] : Vec3) i
  let pos_ddot := oVdot_cg_o
  let pos_dot : Vec3 := ![x_dot, y_dot, z_dot]
  let Mb : Vec3 :=
    ![l / Real.sqrt 2 * (f1 + f2 - f3 - f4),
      l / Real.sqrt 2 * (-f1 + f2 + f3 - f4),
      gamma * (f1 - f2 + f3 - f4)]
  let J : Mat3 := ![![Ixx, 0, 0], ![0, Iyy, 0], ![0, 0, Izz]]
  let Jinv : Mat3 := ![![1 / Ixx, 0, 0], ![0, 1 / Iyy, 0], ![0, 0, 1 / Izz]]
  let pqr : Vec3 := ![p, q, r]
  let rate_dot : Vec3 :=
    mulVec3 Jinv (fun i => Mb i - mulVec3 (skew3 pqr) (mulVec3 J pqr) i)
  let ang_dot : Vec3 :=
    mulVec3
      ![![1, Real.sin phi * Real.tan theta, Real.cos phi * Real.tan theta],
        ![0, Real.cos phi, -Real.sin phi],
        ![0, Real.sin phi / Real.cos theta, Real.cos phi / Real.cos theta]]
      pqr
  ![pos_dot 0, pos_ddot 0, pos_dot 1, pos_ddot 1, pos_dot 2, pos_ddot 2,
    ang_dot 0, ang_dot 1, ang_dot 2, rate_dot 0, rate_dot 1, rate_dot 2]

/-- Quadratic form `v^T Q v` written as the double sum of `v_i Q_ij v_j`. -/
noncomputable def quadForm {n : ℕ} (Q : Fin n → Fin n → ℝ) (v : Fin n → ℝ) : ℝ :=
  ∑ i, ∑ j, v i * Q i j * v j

/-- `_setup_symbolic` cost:
`cost_func = 0.5 * (X - Xr).T @ Q @ (X - Xr) + 0.5 * (U - Ur).T @ R @ (U - Ur)`,
shared by all three fidelities (only `nx`, `nu` differ). -/
noncomputable def cost_func {nx nu : ℕ} (X : Fin nx → ℝ) (U : Fin nu → ℝ)
    (Xr : Fin nx → ℝ) (Ur : Fin nu → ℝ)
    (Q : Fin nx → Fin nx → ℝ) (R : Fin nu → Fin nu → ℝ) : ℝ :=
  1/2 * quadForm Q (fun i => X i - Xr i) + 1/2 * quadForm R (fun i => U i - Ur i)

/-! ### Helper lemmas -/

/-- The masked out-of-bound test fires exactly when some index holds an entry in
all four lists whose mask entry is nonzero and whose state entry is strictly
outside its bounds. -/
theorem outOfBound_iff (state low high : List ℚ) (mask : List ℕ) :
    outOfBound state low high mask = true ↔
      ∃ i s lo hi m, state.get? i = some s ∧ low.get? i = some lo ∧
        high.get? i = some hi ∧ mask.get? i = some m ∧ m ≠ 0 ∧ (s < lo ∨ hi < s) := by
  induction state generalizing low high mask with
  | nil => simp [outOfBound]
  | cons sh st ih =>
      cases low with
      | nil => simp [outOfBound]
      | cons loh lot =>
          cases high with
          | nil => simp [outOfBound]
          | cons hih hit =>
              cases mask with
              | nil => simp [outOfBound]
              | cons mh mt =>
                  rw [show outOfBound (sh :: st) (loh :: lot) (hih :: hit) (mh :: mt) =
                      (((decide (sh < loh) || decide (sh > hih)) && decide (mh ≠ 0)) ||
                        outOfBound st lot hit mt) from rfl]
                  rw [Bool.or_eq_true, ih]
                  constructor
                  · rintro (h | ⟨i, s, lo, hi, m, h1, h2, h3, h4, h5, h6⟩)
                    · rw [Bool.and_eq_true, Bool.or_eq_true, decide_eq_true_iff,
                        decide_eq_true_iff, decide_eq_true_iff] at h
                      exact ⟨0, sh, loh, hih, mh, rfl, rfl, rfl, rfl, h.2, h.1⟩
                    · exact ⟨i + 1, s, lo, hi, m, h1, h2, h3, h4, h5, h6⟩
                  · rintro ⟨i, s, lo, hi, m, h1, h2, h3, h4, h5, h6⟩
                    cases i with
                    | zero =>
                        left
                        simp only [List.get?_cons_zero, Option.some.injEq] at h1 h2 h3 h4
                        subst h1; subst h2; subst h3; subst h4
                        rw [Bool.and_eq_true, Bool.or_eq_true, decide_eq_true_iff,
                          decide_eq_true_iff, decide_eq_true_iff]
                        exact ⟨h6, h5⟩
                    | succ i =>
                        right
                        exact ⟨i, s, lo, hi, m, h1, h2, h3, h4, h5, h6⟩

/-- The if-chain of `_get_done` is a pure boolean OR of its three checks. -/
theorem get_done_eq_or (qt : QuadType) (doob dcol ccol dcomp tcomp : Bool)
    (state low high : List ℚ) :
    get_done qt doob state low high dcol ccol dcomp tcomp =
      ((doob && outOfBound state low high (doneMask qt)) || (dcol && ccol)
        || (dcomp && tcomp)) := by
  unfold get_done
  cases h : doob && outOfBound state low high (doneMask qt) <;>
    cases dcol <;> cases ccol <;> cases dcomp <;> cases tcomp <;> simp [h]

/-! ### Claim theorems -/

/-- C1: the termination flag returned by `_get_done` is true iff (a) the
out-of-bound check is enabled and some state dimension selected by the fixed
per-fidelity mask (1D `[1,0]`, 2D `[1,0,1,0,1,0]`, 3D `[1,0,1,0,1,0,1,1,1,0,0,0]`)
is strictly outside the bounds, or (b) the collision flag is set and
collision-based termination is enabled, or (c) the task-completed flag is set
and completion-based termination is enabled — a pure OR of the three checks. -/
theorem done_pure_or (qt : QuadType) (doob dcol ccol dcomp tcomp : Bool)
    (state low high : List ℚ) :
    (doneMask QuadType.ONE_D = [1, 0] ∧
     doneMask QuadType.TWO_D = [1, 0, 1, 0, 1, 0] ∧
     doneMask QuadType.THREE_D = [1, 0, 1, 0, 1, 0, 1, 1, 1, 0, 0, 0]) ∧
    (get_done qt doob state low high dcol ccol dcomp tcomp = true ↔
      ((doob = true ∧ ∃ i s lo hi m, state.get? i = some s ∧ low.get? i = some lo ∧
          high.get? i = some hi ∧ (doneMask qt).get? i = some m ∧ m ≠ 0 ∧
          (s < lo ∨ hi < s)) ∨
        (dcol = true ∧ ccol = true) ∨
        (dcomp = true ∧ tcomp = true))) := by
  refine ⟨⟨rfl, rfl, rfl⟩, ?_⟩
  rw [get_done_eq_or]
  simp only [Bool.or_eq_true, Bool.and_eq_true]
  rw [outOfBound_iff, or_assoc]

/-- C4: the sparse competition reward is the sum of four independent additive
contributions (+100 gate passage, +100 at goal, −1000 collision, −100 constraint
violation); in particular passing a gate while colliding yields exactly −900. -/
theorem competition_reward_additive :
    (∀ g a c v, competition_reward g a c v =
      (if g then 100 else 0) + (if a then 100 else 0) +
        (if c then -1000 else 0) + (if v then -100 else 0)) ∧
    competition_reward true false true false = 100 - 1000 := by
  exact ⟨by decide, by decide⟩

/-- C8: evaluation of the `reset` gate-id validation at the inputs deciding the
claim: a negative requested id (−1 with 2 gates) passes the `assert` and `reset`
proceeds, taking the start pose from Python index −2 of `gates_pose`; only ids
`≥ NUM_GATES` make the assert fail. -/
theorem reset_gate_id_validation :
    reset_gate_id 2 (some (-1)) = ResetOutcome.ok (-1) (some (-2)) ∧
    reset_gate_id 2 (some 2) = ResetOutcome.assert_failed ∧
    reset_gate_id 2 (some 5) = ResetOutcome.assert_failed ∧
    reset_gate_id 0 (some 0) = ResetOutcome.ok 0 none := by
  refine ⟨by decide, by decide, by decide, by decide⟩

/-- C9: `info["current_gate_id"]` equals the gate counter while it is below
`NUM_GATES`, equals the sentinel −1 once the counter has reached `NUM_GATES`,
and is never reported as `NUM_GATES` itself. -/
theorem current_gate_id_sentinel (gate : ℤ) (N : ℕ) :
    (gate < (N : ℤ) → current_gate_id gate N = gate) ∧
    (gate = (N : ℤ) → current_gate_id gate N = -1) ∧
    current_gate_id gate N ≠ (N : ℤ) := by
  refine ⟨fun h => ?_, fun h => ?_, ?_⟩
  · simp [current_gate_id, h]
  · simp [current_gate_id, h]
  · unfold current_gate_id
    split_ifs with h
    · omega
    · omega

/-- Witness for C9 at concrete inputs: one gate remaining and all gates passed. -/
theorem current_gate_id_sentinel_witness :
    current_gate_id 1 3 = 1 ∧ current_gate_id 3 3 = -1 :=
  ⟨(current_gate_id_sentinel 1 3).1 (by decide),
   (current_gate_id_sentinel 3 3).2.1 (by decide)⟩

/-- One `_get_info` call changes the gate counter by exactly 1 on detection and
leaves it unchanged otherwise. -/
theorem gateStep_current_gate (F N pyb : ℕ) (rays : List ℚ) (s : GateState) :
    (gateStep F N pyb rays s).current_gate =
      if detectsPassage F N pyb rays s = true then s.current_gate + 1
      else s.current_gate := by
  unfold gateStep gateStepFull detectsPassage
  cases hg : gateGuard F N pyb s <;>
    cases hr : rays.any fun rr => decide (rr < 9999/10000) <;> simp [hg, hr]

/-- The guard of the gate-progress block forces `current_gate < NUM_GATES`. -/
theorem gateGuard_lt (F N pyb : ℕ) (s : GateState)
    (hg : gateGuard F N pyb s = true) : s.current_gate < (N : ℤ) := by
  unfold gateGuard at hg
  rw [Bool.and_eq_true, Bool.and_eq_true, decide_eq_true_iff, decide_eq_true_iff,
    decide_eq_true_iff] at hg
  exact hg.2

/-- One `_get_info` call keeps the gate counter within `[0, NUM_GATES]`. -/
theorem gateStep_bounds (F N pyb : ℕ) (rays : List ℚ) (s : GateState)
    (h0 : 0 ≤ s.current_gate) (hN : s.current_gate ≤ (N : ℤ)) :
    0 ≤ (gateStep F N pyb rays s).current_gate ∧
      (gateStep F N pyb rays s).current_gate ≤ (N : ℤ) := by
  unfold gateStep gateStepFull
  cases hg : gateGuard F N pyb s
  · simpa using ⟨h0, hN⟩
  · have hlt := gateGuard_lt F N pyb s hg
    cases hr : rays.any fun rr => decide (rr < 9999/10000) <;> simp <;> omega

/-- Folding steps from any in-bounds gate counter stays in `[0, NUM_GATES]`. -/
theorem runGates_bounds_aux (F N : ℕ) (inputs : List (ℕ × List ℚ)) (s : GateState)
    (h0 : 0 ≤ s.current_gate) (hN : s.current_gate ≤ (N : ℤ)) :
    0 ≤ (inputs.foldl (fun s inp => gateStep F N inp.1 inp.2 s) s).current_gate ∧
      (inputs.foldl (fun s inp => gateStep F N inp.1 inp.2 s) s).current_gate ≤ (N : ℤ) := by
  induction inputs generalizing s with
  | nil => exact ⟨h0, hN⟩
  | cons a t ih =>
      simp only [List.foldl_cons]
      obtain ⟨h0', hN'⟩ := gateStep_bounds F N a.1 a.2 s h0 hN
      exact ih _ h0' hN'

/-- C2: within an episode started at gate index 0, the gate counter starts at 0,
changes by exactly +1 on a step whose passage check detects a crossing and by 0
otherwise (hence never decreases and increments at most once per step), stays at
`NUM_GATES` once all gates are passed, and along every episode remains within
`[0, NUM_GATES]`. -/
theorem current_gate_counter_invariant (F N : ℕ) :
    resetGateState.current_gate = 0 ∧
    (∀ pyb rays s, (gateStep F N pyb rays s).current_gate =
      if detectsPassage F N pyb rays s = true then s.current_gate + 1
      else s.current_gate) ∧
    (∀ pyb rays s, s.current_gate = (N : ℤ) →
      (gateStep F N pyb rays s).current_gate = (N : ℤ)) ∧
    (∀ inputs, 0 ≤ (runGates F N inputs).current_gate ∧
      (runGates F N inputs).current_gate ≤ (N : ℤ)) := by
  refine ⟨rfl, gateStep_current_gate F N, fun pyb rays s hs => ?_, fun inputs => ?_⟩
  · rw [gateStep_current_gate F N pyb rays s]
    have hguard : gateGuard F N pyb s = false := by
      cases hg : gateGuard F N pyb s
      · rfl
      · exact absurd (gateGuard_lt F N pyb s hg) (by omega)
    unfold detectsPassage
    rw [hguard]
    simpa using hs
  · exact runGates_bounds_aux F N inputs resetGateState (by decide) (by simp [resetGateState])

/-- Witness for C2: a step taken with the counter already at `NUM_GATES = 1`
leaves it at 1, even though a ray reports a hit. -/
theorem current_gate_counter_invariant_witness :
    (gateStep 2 1 4 [1/2] ⟨1, true⟩).current_gate = ((1 : ℕ) : ℤ) :=
  (current_gate_counter_invariant 2 1).2.2.1 4 [1/2] ⟨1, true⟩ (by decide)

/-- C3 counterexample: with one gate (`NUM_GATES = 1`, `PYB_FREQ = 2`), the gate
is passed on a first step (ray fraction 1/2); on the following step no passage
detection fires, yet `stepped_through_gate` is still true — the flag is not a
single-step pulse. -/
theorem stepped_through_gate_pulse_cex :
    detectsPassage 2 1 4 [1] (gateStep 2 1 2 [1/2] resetGateState) = false ∧
    (gateStep 2 1 4 [1] (gateStep 2 1 2 [1/2] resetGateState)).stepped_through_gate
      = true := by
  have h1 : gateStep 2 1 2 [1/2] resetGateState = ⟨1, true⟩ := by
    norm_num [gateStep, gateStepFull, gateGuard, resetGateState]
  rw [h1]
  constructor
  · norm_num [detectsPassage, gateGuard]
  · norm_num [gateStep, gateStepFull, gateGuard]

/-- C3 amended: while the passage check runs (its guard holds), the flag is a
single-step pulse — true exactly when a ray detects the crossing; on steps where
the check is suppressed the flag keeps its previous value, so in particular it
stays true on every step after the final gate has been passed. -/
theorem stepped_through_gate_semantics (F N pyb : ℕ) (rays : List ℚ) (s : GateState) :
    ((gateStep F N pyb rays s).stepped_through_gate =
      if gateGuard F N pyb s = true then rays.any fun rr => decide (rr < 9999/10000)
      else s.stepped_through_gate) ∧
    (s.current_gate = (N : ℤ) → s.stepped_through_gate = true →
      (gateStep F N pyb rays s).stepped_through_gate = true) := by
  constructor
  · unfold gateStep gateStepFull
    cases hg : gateGuard F N pyb s <;>
      cases hr : rays.any fun rr => decide (rr < 9999/10000) <;> simp [hg, hr]
  · intro hs hflag
    unfold gateStep gateStepFull
    have hguard : gateGuard F N pyb s = false := by
      cases hg : gateGuard F N pyb s
      · rfl
      · exact absurd (gateGuard_lt F N pyb s hg) (by omega)
    rw [hguard]
    simpa using hflag

/-- Witness for C3's amended theorem: after passing the single gate, the next
step keeps the flag true. -/
theorem stepped_through_gate_semantics_witness :
    (gateStep 2 1 4 [1] ⟨1, true⟩).stepped_through_gate = true :=
  (stepped_through_gate_semantics 2 1 4 [1] ⟨1, true⟩).2 (by decide) rfl

/-- C10: whenever the settling window is still open
(`pyb_step_counter ≤ 0.5 * PYB_FREQ`), or there are no gates, or the counter has
already reached `NUM_GATES`, the ray test is not performed and the gate-progress
state (counter and flag) is left untouched. -/
theorem gate_check_suppressed (F N pyb : ℕ) (rays : List ℚ) (s : GateState)
    (h : (pyb : ℚ) ≤ 1/2 * (F : ℚ) ∨ N = 0 ∨ s.current_gate = (N : ℤ)) :
    (gateStepFull F N pyb rays s).2 = false ∧ gateStep F N pyb rays s = s := by
  have hg : gateGuard F N pyb s = false := by
    unfold gateGuard
    rcases h with h | h | h
    · rw [decide_eq_false (not_lt.mpr h), Bool.false_and, Bool.false_and]
    · subst h
      rw [show decide (0 < 0) = false from rfl, Bool.and_false, Bool.false_and]
    · rw [decide_eq_false (by omega : ¬ s.current_gate < (N : ℤ)), Bool.and_false]
  unfold gateStep gateStepFull
  rw [hg]
  exact ⟨rfl, rfl⟩

/-- Witness for C10: first control step (2 physics steps at `PYB_FREQ = 48`) is
inside the settling window, so nothing happens even though a ray reports a hit. -/
theorem gate_check_suppressed_witness :
    (gateStepFull 48 3 2 [1/2] resetGateState).2 = false ∧
    gateStep 48 3 2 [1/2] resetGateState = resetGateState :=
  gate_check_suppressed 48 3 2 [1/2] resetGateState (Or.inl (by norm_num))

/-- C5 counterexample: with a 2-entry goal sequence and `ctrl_step_counter = 2`,
the quadratic-cost branch's lookup raises (returns no entry) instead of clamping
to the final entry as the RL branch does. -/
theorem quadratic_goal_unclamped_cex :
    quadratic_tracking_goal ([0, 1] : List ℚ) 2 = none ∧
    rl_tracking_goal ([0, 1] : List ℚ) 2 = some 1 := by
  exact ⟨rfl, rfl⟩

/-- C5 amended: at or beyond the horizon the RL-reward lookup (also used by the
info-dict MSE) clamps to the final goal entry and always returns one, while the
quadratic-cost branch's direct index fails (IndexError). -/
theorem tracking_goal_clamped (α : Type) (X_GOAL : List α) (c : ℕ)
    (hne : X_GOAL ≠ []) (hc : X_GOAL.length ≤ c) :
    rl_tracking_goal X_GOAL c = some (X_GOAL.getLast hne) ∧
    quadratic_tracking_goal X_GOAL c = none := by
  constructor
  · unfold rl_tracking_goal
    have hlen : 0 < X_GOAL.length := List.length_pos.mpr hne
    have hmin : min c (X_GOAL.length - 1) = X_GOAL.length - 1 := by omega
    rw [hmin, List.getLast_eq_getElem]
    rw [List.get?_eq_get (by omega : X_GOAL.length - 1 < X_GOAL.length)]
    simp
  · exact List.get?_eq_none.mpr hc

/-- Witness for C5's amended theorem at a concrete overrun step. -/
theorem tracking_goal_clamped_witness :
    rl_tracking_goal ([0, 1] : List ℚ) 5 =
      some (([0, 1] : List ℚ).getLast (by decide)) ∧
    quadratic_tracking_goal ([0, 1] : List ℚ) 5 = none :=
  tracking_goal_clamped ℚ [0, 1] 5 (by decide) (by decide)

/-- C6: for each fidelity, the state derivative at the hover equilibrium —
all velocities, angles, and body rates zero, total thrust `m·g` split evenly
over the fidelity's actuators — is the zero vector; in particular all linear
accelerations, angular accelerations, and Euler-angle rates vanish. -/
theorem hover_equilibrium (m g l Ixx Iyy Izz gamma : ℝ) (hm : m ≠ 0) :
    (∀ i, oneD_X_dot m g 0 0 (m * g) i = 0) ∧
    (∀ i, twoD_X_dot m g l Iyy 0 0 0 0 0 0 (m * g / 2) (m * g / 2) i = 0) ∧
    (∀ i, threeD_X_dot m g l Ixx Iyy Izz gamma 0 0 0 0 0 0 0 0 0 0 0 0
      (m * g / 4) (m * g / 4) (m * g / 4) (m * g / 4) i = 0) := by
  refine ⟨?_, ?_, ?_⟩
  · intro i
    fin_cases i
    · simp [oneD_X_dot]
    · simp only [oneD_X_dot]
      norm_num
      field_simp
  · intro i
    fin_cases i <;>
      · simp only [twoD_X_dot]
        norm_num
        try field_simp
  · intro i
    fin_cases i <;>
      · simp only [threeD_X_dot, csRotXYZ, mulMat3, mulVec3, rotX, rotY, rotZ, skew3,
          Real.sin_zero, Real.cos_zero, Real.tan_zero]
        norm_num
        try field_simp
        try ring_nf

/-- Witness for C6 at concrete physical parameters (`m = 1`, `g = 49/5`,
Crazyflie-like arms and inertias scaled to 1). -/
theorem hover_equilibrium_witness :
    (∀ i, oneD_X_dot 1 (49/5) 0 0 (1 * (49/5)) i = 0) ∧
    (∀ i, twoD_X_dot 1 (49/5) 1 1 0 0 0 0 0 0 (1 * (49/5) / 2) (1 * (49/5) / 2) i = 0) ∧
    (∀ i, threeD_X_dot 1 (49/5) 1 1 1 1 1 0 0 0 0 0 0 0 0 0 0 0 0
      (1 * (49/5) / 4) (1 * (49/5) / 4) (1 * (49/5) / 4) (1 * (49/5) / 4) i = 0) :=
  hover_equilibrium 1 (49/5) 1 1 1 1 1 one_ne_zero

/-- C7: the symbolic quadratic cost `0.5·(X−Xr)ᵀQ(X−Xr) + 0.5·(U−Ur)ᵀR(U−Ur)`
evaluates to exactly 0 at zero error (`Xr = X`, `Ur = U`) for every state,
input, and weight matrices `Q`, `R`; the second conjunct records the closed
form of the cost for arbitrary references. -/
theorem loss_zero_at_reference (nx nu : ℕ) (X : Fin nx → ℝ) (U : Fin nu → ℝ)
    (Q : Fin nx → Fin nx → ℝ) (R : Fin nu → Fin nu → ℝ) :
    cost_func X U X U Q R = 0 ∧
    (∀ (Xr : Fin nx → ℝ) (Ur : Fin nu → ℝ),
      cost_func X U Xr Ur Q R =
        1/2 * (∑ i, ∑ j, (X i - Xr i) * Q i j * (X j - Xr j)) +
        1/2 * (∑ i, ∑ j, (U i - Ur i) * R i j * (U j - Ur j))) := by
  constructor
  · simp [cost_func, quadForm]
  · intro Xr Ur
    rfl

end Quadrotor
